import Mathlib

/-!
Verification of the session logic of the Synapse AI learning agent.

The development shallowly embeds the pure logic of `app.py` and the
`utils` modules: regex-based lesson-plan parsing, the JSON parsing done
by the quiz generator, the guided-session / quiz state machine that
lives in Streamlit session state, the RAG answer pipeline, the web
scraper result shapes, and the ingestion duplicate handling.  External
services (generative model, embedding backend, vector store, storage
bucket) are passed in as explicit function parameters, mirroring the
call sites in the source.
-/

/-! ## Python character classes -/

/-- Character class of the regex token `\d` (ASCII digits; the source
only ever feeds model output, and the claims are about ASCII text). -/
def isAsciiDigit (c : Char) : Bool := '0' ≤ c && c ≤ '9'

/-- Character class of the regex token `\s` and of the default
`str.strip` separator set: space, tab, newline, carriage return,
vertical tab, form feed. -/
def isPySpace (c : Char) : Bool :=
  c = ' ' || c = '\t' || c = '\n' || c = '\r' || c = '\x0b' || c = '\x0c'

/-! ## Lesson-plan parsing: `re.findall(r'\d+\.\s*(.*)', response.text)`
in `app.generate_lesson_plan` (src/app.py lines 24-43). -/

/-- One anchored attempt of the pattern at the head of the input.
On success, returns the text of the capture group `(.*)` together with
the input remaining after the whole match.  The maximal digit run must
be followed by a literal dot (regex backtracking inside `\d+` can never
recover, because a shortened digit run is followed by a digit, not a
dot); then `\s*` greedily skips whitespace (including newlines) and
`(.*)` greedily captures up to, but not including, the next newline. -/
def matchNumberedItem (cs : List Char) : Option (List Char × List Char) :=
  let ds := cs.takeWhile isAsciiDigit
  let r1 := cs.dropWhile isAsciiDigit
  if ds.isEmpty then none
  else
    match r1 with
    | '.' :: r2 =>
      let r3 := r2.dropWhile isPySpace
      let body := r3.takeWhile (fun c => c ≠ '\n')
      let rest := r3.dropWhile (fun c => c ≠ '\n')
      some (body, rest)
    | _ => none

/-- Scan of `re.findall`: at each position try the pattern; on a match,
emit the capture group and resume after the match, otherwise advance one
character.  The fuel argument only bounds the recursion; every match
consumes at least two characters, so fuel equal to the input length is
always sufficient (see `findNumberedAux_fuel_irrel`). -/
def findNumberedAux : Nat → List Char → List (List Char)
  | 0, _ => []
  | _ + 1, [] => []
  | fuel + 1, c :: cs =>
    match matchNumberedItem (c :: cs) with
    | some (body, rest) => body :: findNumberedAux fuel rest
    | none => findNumberedAux fuel cs

/-- All capture groups of `re.findall(r'\d+\.\s*(.*)', s)`, in order. -/
def findNumbered (cs : List Char) : List (List Char) :=
  findNumberedAux cs.length cs

/-- Embedding of `app.generate_lesson_plan` restricted to its pure
content: the regex parse of the generator output and the
`return plan if plan else None` result policy.  The prompt construction
and the model call produce `output`; a model-call exception also yields
`None` in the source and is outside this pure slice. -/
def generate_lesson_plan (output : String) : Option (List String) :=
  let plan := (findNumbered output.data).map (fun l => String.mk l)
  if plan.isEmpty then none else some plan

/-! ## Session state

Model of the Streamlit `st.session_state` fields that the claims are
about (src/app.py lines 163-180).  `quiz_questions` holds whatever
value `generate_quiz` produced, i.e. an arbitrary parsed JSON value;
the source never validates its shape (see `PyJson` below). -/

/-- Parsed JSON value, the result type of `json.loads` in
`utils/quiz_generator.py`.  Numbers keep their source lexeme (the
claims never depend on numeric values, only on Python truthiness,
which is computable from the lexeme). -/
inductive PyJson where
  | null
  | bool (b : Bool)
  | num (lexeme : String)
  | str (s : String)
  | arr (elems : List PyJson)
  | obj (fields : List (String × PyJson))

/-- Python truthiness of a number lexeme: zero iff every mantissa digit
(before any exponent marker) is `0`.  The non-finite constants accepted
by `json.loads` are truthy. -/
def numIsZero (lex : String) : Bool :=
  (lex.data.takeWhile (fun c => c ≠ 'e' && c ≠ 'E')).all
    (fun c => !('1' ≤ c && c ≤ '9'))

/-- Python truthiness of a parsed JSON value (`if quiz:` in app.py). -/
def pyTruthy : PyJson → Bool
  | .null => false
  | .bool b => b
  | .num lex =>
    if lex = "NaN" || lex = "Infinity" || lex = "-Infinity" then true
    else !numIsZero lex
  | .str s => s ≠ ""
  | .arr l => !l.isEmpty
  | .obj l => !l.isEmpty

/-- One chat message of the transcript (`st.session_state.messages`). -/
structure ChatMessage where
  role : String
  content : String
deriving DecidableEq

/-- Row of the `learning_goals` table as used by the session.
`create_learning_goal` (src/utils/supabase_handler.py lines 96-104)
inserts `user_id`, `topic`, `goal`, `total_steps`.  Modelled from the
spec: the insert does not set `progress`, whose stored counter starts
at 0 when the goal is created (spec section 3, LearningGoal row). -/
structure LearningGoal where
  user_id : Nat
  topic : String
  goal : String
  total_steps : Nat
  progress : Nat
deriving DecidableEq

/-- Embedding of `supabase_handler.create_learning_goal` as the row it
inserts and returns. -/
def create_learning_goal (user_id : Nat) (topic goal : String)
    (total_steps : Nat) : LearningGoal :=
  { user_id := user_id, topic := topic, goal := goal,
    total_steps := total_steps, progress := 0 }

/-- Embedding of `supabase_handler.update_goal_progress`: sets the
`progress` column of the goal row to the given value. -/
def update_goal_progress (g : LearningGoal) (current_progress : Nat) :
    LearningGoal :=
  { g with progress := current_progress }

/-- Value of the `step_phase` session key inside a guided session. -/
inductive StepPhase where
  | teaching
  | quizzing
deriving DecidableEq

/-- Slice of `st.session_state` relevant to the claims. -/
structure AppState where
  messages : List ChatMessage
  in_guided_session : Bool
  lesson_plan : Option (List String)
  lesson_step : Nat
  quiz_mode : Bool
  quiz_questions : Option PyJson
  current_question_index : Nat
  score : Nat
  step_phase : StepPhase
  current_goal : Option LearningGoal

/-- Embedding of the Start Guided Session handler (src/app.py lines
422-438).  `explain` stands for `explain_sub_topic` applied to the
model (a pure pass-through of generated text); `output` is the
generator text that `generate_lesson_plan` parses.  When the parsed
plan is empty (`None`) or a required input is blank, the handler leaves
the session state untouched. -/
def startGuidedSession (s : AppState) (user_id : Nat)
    (topic goal : String) (explain : String → String)
    (output : String) : AppState :=
  if topic ≠ "" && goal ≠ "" then
    match generate_lesson_plan output with
    | some plan =>
      { s with
        current_goal :=
          some (create_learning_goal user_id topic goal plan.length),
        lesson_plan := some plan,
        in_guided_session := true,
        lesson_step := 0,
        messages :=
          [ { role := "assistant",
              content := "Great! I\x27ve prepared a lesson on \x27" ++
                topic ++ "\x27. Here is the first part:" },
            { role := "assistant",
              content := explain (plan.headD "") } ] }
    | none => s
  else s

/-- Embedding of the End Session handler (src/app.py line 299): it
resets the two mode flags and empties the transcript, and touches
nothing else. -/
def endSession (s : AppState) : AppState :=
  { s with in_guided_session := false, quiz_mode := false,
           messages := [] }

/-! ## JSON parsing: `json.loads` in `utils/quiz_generator.py`

Model of the Python `json` decoder on the subset of behaviour the
claims depend on: the value grammar (objects, arrays, strings with
escapes, numbers, literals, and the NaN/Infinity constants the decoder
accepts by default), whitespace handling, and the requirement that the
whole input is consumed.  Unicode escapes are decoded code-point-wise
(surrogate pairing is not modelled; no claim involves it). -/

/-- JSON whitespace as skipped by the Python decoder. -/
def skipJsonWs (cs : List Char) : List Char :=
  cs.dropWhile (fun c => c = ' ' || c = '\t' || c = '\n' || c = '\r')

/-- Value of a hexadecimal digit (either case), via code points: the
digits sit at 48-57, the lowercase letters at 97-102 (value from 87),
the uppercase letters at 65-70 (value from 55). -/
def hexVal (c : Char) : Option Nat :=
  let n := c.toNat
  if 48 ≤ n && n ≤ 57 then some (n - 48)
  else if 97 ≤ n && n ≤ 102 then some (n - 87)
  else if 65 ≤ n && n ≤ 70 then some (n - 55)
  else none

/-- Decoded character of a single-character string escape. -/
def escChar : Char → Option Char
  | '"' => some '"'
  | '\\' => some '\\'
  | '/' => some '/'
  | 'b' => some '\x08'
  | 'f' => some '\x0c'
  | 'n' => some '\n'
  | 'r' => some '\r'
  | 't' => some '\t'
  | _ => none

/-- Body of a JSON string after the opening quote, in strict mode:
unescaped control characters are rejected, escapes are decoded.
Returns the decoded characters and the input after the closing
quote. -/
def parseJStringAux : List Char → Option (List Char × List Char)
  | [] => none
  | '"' :: rest => some ([], rest)
  | '\\' :: 'u' :: h1 :: h2 :: h3 :: h4 :: r =>
    match hexVal h1, hexVal h2, hexVal h3, hexVal h4 with
    | some a, some b, some c, some d =>
      (parseJStringAux r).map
        (fun p => (Char.ofNat (((a * 16 + b) * 16 + c) * 16 + d) :: p.1, p.2))
    | _, _, _, _ => none
  | '\\' :: c :: r =>
    match escChar c with
    | some e => (parseJStringAux r).map (fun p => (e :: p.1, p.2))
    | none => none
  | '\\' :: [] => none
  | c :: rest =>
    if c.toNat < 0x20 then none
    else (parseJStringAux rest).map (fun p => (c :: p.1, p.2))

/-- Fraction and exponent suffix of a number, per the decoder regex
groups `(\.\d+)?([eE][-+]?\d+)?`: a malformed suffix is simply not part
of the match. -/
def parseNumberTail (intPart : List Char) (cs : List Char) :
    Option (List Char × List Char) :=
  let (frac, cs1) :=
    match cs with
    | '.' :: r =>
      let ds := r.takeWhile isAsciiDigit
      if ds.isEmpty then (([] : List Char), cs)
      else ('.' :: ds, r.dropWhile isAsciiDigit)
    | _ => ([], cs)
  let (ex, cs2) :=
    match cs1 with
    | e :: r =>
      if e = 'e' || e = 'E' then
        match r with
        | s :: r2 =>
          if s = '+' || s = '-' then
            let ds := r2.takeWhile isAsciiDigit
            if ds.isEmpty then (([] : List Char), cs1)
            else (e :: s :: ds, r2.dropWhile isAsciiDigit)
          else
            let ds := r.takeWhile isAsciiDigit
            if ds.isEmpty then (([] : List Char), cs1)
            else (e :: ds, r.dropWhile isAsciiDigit)
        | [] => ([], cs1)
      else ([], cs1)
    | [] => ([], cs1)
  some (intPart ++ frac ++ ex, cs2)

/-- Number lexeme per the decoder regex `(-?(?:0|[1-9]\d*))` followed by
the optional fraction and exponent groups. -/
def parseNumber (cs : List Char) : Option (List Char × List Char) :=
  let (sgn, cs1) :=
    match cs with
    | '-' :: r => ((['-'] : List Char), r)
    | _ => ([], cs)
  match cs1 with
  | '0' :: r => parseNumberTail (sgn ++ ['0']) r
  | c :: r =>
    if '1' ≤ c && c ≤ '9' then
      parseNumberTail (sgn ++ c :: r.takeWhile isAsciiDigit)
        (r.dropWhile isAsciiDigit)
    else none
  | [] => none

mutual

/-- One JSON value at the head of the input (whitespace already
skipped), dispatching on the first character exactly as the Python
scanner does.  The fuel bounds recursion depth; `json_loads` passes
enough for any input (two units per consumed character suffice). -/
def parseValue : Nat → List Char → Option (PyJson × List Char)
  | 0, _ => none
  | fuel + 1, cs =>
    match cs with
    | '{' :: rest =>
      (match skipJsonWs rest with
       | '}' :: r2 => some (PyJson.obj [], r2)
       | r => (parseMembers fuel r).map (fun p => (PyJson.obj p.1, p.2)))
    | '[' :: rest =>
      (match skipJsonWs rest with
       | ']' :: r2 => some (PyJson.arr [], r2)
       | r => (parseElements fuel r).map (fun p => (PyJson.arr p.1, p.2)))
    | '"' :: rest =>
      (parseJStringAux rest).map
        (fun p => (PyJson.str (String.mk p.1), p.2))
    | 'n' :: 'u' :: 'l' :: 'l' :: rest => some (PyJson.null, rest)
    | 't' :: 'r' :: 'u' :: 'e' :: rest => some (PyJson.bool true, rest)
    | 'f' :: 'a' :: 'l' :: 's' :: 'e' :: rest =>
      some (PyJson.bool false, rest)
    | 'N' :: 'a' :: 'N' :: rest => some (PyJson.num "NaN", rest)
    | 'I' :: 'n' :: 'f' :: 'i' :: 'n' :: 'i' :: 't' :: 'y' :: rest =>
      some (PyJson.num "Infinity", rest)
    | '-' :: 'I' :: 'n' :: 'f' :: 'i' :: 'n' :: 'i' :: 't' :: 'y' :: rest =>
      some (PyJson.num "-Infinity", rest)
    | _ =>
      (parseNumber cs).map (fun p => (PyJson.num (String.mk p.1), p.2))

/-- Non-empty tail of a JSON array: a value, then either a closing
bracket or a comma and further elements. -/
def parseElements : Nat → List Char → Option (List PyJson × List Char)
  | 0, _ => none
  | fuel + 1, cs =>
    match parseValue fuel cs with
    | none => none
    | some (v, r1) =>
      match skipJsonWs r1 with
      | ']' :: r2 => some ([v], r2)
      | ',' :: r2 =>
        (match parseElements fuel (skipJsonWs r2) with
         | none => none
         | some (vs, r3) => some (v :: vs, r3))
      | _ => none

/-- Non-empty member list of a JSON object: a string key, a colon, a
value, then either a closing brace or a comma and further members. -/
def parseMembers : Nat → List Char →
    Option (List (String × PyJson) × List Char)
  | 0, _ => none
  | fuel + 1, cs =>
    match cs with
    | '"' :: rest =>
      (match parseJStringAux rest with
       | none => none
       | some (key, r1) =>
         match skipJsonWs r1 with
         | ':' :: r2 =>
           (match parseValue fuel (skipJsonWs r2) with
            | none => none
            | some (v, r3) =>
              match skipJsonWs r3 with
              | '}' :: r4 => some ([(String.mk key, v)], r4)
              | ',' :: r4 =>
                (match parseMembers fuel (skipJsonWs r4) with
                 | none => none
                 | some (kvs, r5) => some ((String.mk key, v) :: kvs, r5))
              | _ => none)
         | _ => none)
    | _ => none

end

/-- Embedding of `json.loads`: skip leading whitespace, parse one
value, require only whitespace to remain. -/
def json_loads (s : String) : Option PyJson :=
  match parseValue (2 * s.data.length + 4) (skipJsonWs s.data) with
  | some (v, rest) => if (skipJsonWs rest).isEmpty then some v else none
  | none => none

/-! ## Quiz generation: `utils/quiz_generator.generate_quiz`
(src/utils/quiz_generator.py lines 4-32). -/

/-- Test of whether `pat` is an initial segment of the input. -/
def listStartsWith : List Char → List Char → Bool
  | [], _ => true
  | _ :: _, [] => false
  | p :: ps, c :: cs => p = c && listStartsWith ps cs

/-- Scan of Python `str.replace`: replace every non-overlapping
occurrence of `pat`, left to right.  Call sites only use non-empty
patterns, for which fuel equal to the input length is sufficient. -/
def replaceAux (pat rep : List Char) : Nat → List Char → List Char
  | 0, cs => cs
  | fuel + 1, cs =>
    match cs with
    | [] => []
    | c :: rest =>
      if listStartsWith pat cs then
        rep ++ replaceAux pat rep fuel (cs.drop pat.length)
      else c :: replaceAux pat rep fuel rest

/-- Embedding of Python `str.replace` (non-empty pattern). -/
def pyReplace (s pat rep : String) : String :=
  String.mk (replaceAux pat.data rep.data s.data.length s.data)

/-- Embedding of Python `str.strip()` on ASCII text: drop leading and
trailing whitespace. -/
def pyStrip (s : String) : String :=
  String.mk (((s.data.dropWhile isPySpace).reverse.dropWhile
    isPySpace).reverse)

/-- Cleanup applied to the model output before `json.loads`:
`response.text.strip().replace("```json", "").replace("```", "")`. -/
def pyCleanup (raw : String) : String :=
  pyReplace (pyReplace (pyStrip raw) "```json" "") "```" ""

/-- Prompt built by `generate_quiz` from the context and the requested
question count. -/
def quizPrompt (context : String) (num_questions : Nat) : String :=
  "\n    You are an expert quiz designer. Based on the following text context, create a " ++
  toString num_questions ++
  "-question multiple-choice quiz.\n    The questions should test the user\x27s understanding of the key concepts in the text.\n\n    **Instructions for output:**\n    - Provide the output in a strict JSON format.\n    - The JSON should be a list of objects, where each object represents a question.\n    - Each question object must have three keys: \"question\" (string), \"options\" (a list of 4 strings), and \"correct_answer\" (a string that exactly matches one of the options).\n\n    Context:\n    ---\n    " ++
  context ++ "\n    ---\n    "

/-- Embedding of `generate_quiz`: build the prompt, call the model,
clean the response text and run `json.loads` on it.  Any exception
(model failure or parse failure) is caught and yields `None`; a
successfully parsed JSON `null` is the Python value `None` as well, so
both map to `none`.  No shape validation is performed on the parsed
value. -/
def generate_quiz (model : String → Except String String)
    (context : String) (num_questions : Nat) : Option PyJson :=
  match model (quizPrompt context num_questions) with
  | Except.error _ => none
  | Except.ok text =>
    match json_loads (pyCleanup text) with
    | none => none
    | some PyJson.null => none
    | some v => some v

/-- Context of the teaching-phase mini quiz: the content of the most
recent message (`st.session_state.messages[-1]['content']`). -/
def teachingContext (s : AppState) : String :=
  ((s.messages.getLast?).map ChatMessage.content).getD ""

/-- Context of the final review quiz: the space-joined contents of all
assistant messages. -/
def finalReviewContext (s : AppState) : String :=
  String.intercalate " "
    ((s.messages.filter (fun m => m.role = "assistant")).map
      ChatMessage.content)

/-- Embedding of the teaching-phase mini-quiz start (src/app.py lines
330-340): in the teaching phase, generate a 2-question quiz from the
most recent message and, only if the result is truthy, store it and
switch `step_phase` to quizzing. -/
def teachingQuizStart (s : AppState)
    (model : String → Except String String) : AppState :=
  if s.step_phase = StepPhase.teaching then
    match generate_quiz model (teachingContext s) 2 with
    | some quiz =>
      if pyTruthy quiz then
        { s with quiz_questions := some quiz,
                 current_question_index := 0,
                 step_phase := StepPhase.quizzing }
      else s
    | none => s
  else s

/-- Embedding of the Final Review Quiz start (src/app.py lines
405-414): generate a 5-question quiz from all assistant messages and,
only if the result is truthy, store it, reset the index and score, and
enter quiz mode. -/
def finalReviewQuizStart (s : AppState)
    (model : String → Except String String) : AppState :=
  match generate_quiz model (finalReviewContext s) 5 with
  | some quiz =>
    if pyTruthy quiz then
      { s with quiz_questions := some quiz,
               current_question_index := 0,
               score := 0,
               quiz_mode := true }
    else s
  | none => s

/-- Field lookup in a parsed JSON object. -/
def lookupField (fields : List (String × PyJson)) (k : String) :
    Option PyJson :=
  (fields.find? (fun f => f.1 = k)).map Prod.snd

/-- Test for a JSON string value. -/
def isStringJson : PyJson → Bool
  | .str _ => true
  | _ => false

/-- Shape of one quiz question as demanded by the prompt of
`generate_quiz`: an object with the keys `question` (string), `options`
(a list of 4 strings) and `correct_answer` (a string equal to one of
the options). -/
def isQuestionObj : PyJson → Bool
  | .obj fields =>
    (match lookupField fields "question", lookupField fields "options",
           lookupField fields "correct_answer" with
     | some (.str _), some (.arr opts), some (.str ans) =>
       opts.length = 4 && opts.all isStringJson &&
         opts.any (fun o =>
           match o with
           | .str s => s = ans
           | _ => false)
     | _, _, _ => false)
  | _ => false

/-- Shape of a whole quiz as demanded by the prompt of `generate_quiz`:
a JSON list of question objects. -/
def isQuestionList : Option PyJson → Bool
  | some (.arr qs) => qs.all isQuestionObj
  | _ => false

/-! ## Full-quiz UI scoring (src/app.py lines 271-299)

One question of the quiz UI lives in three Streamlit render states:
form shown, answer submitted (feedback shown, score updated once,
guarded by the `feedback_given_{index}` key), and advance on the Next
button.  The feedback block re-runs on every re-render while the user
has not pressed Next. -/

/-- One well-formed quiz question as accessed by the quiz UI. -/
structure Question where
  question : String
  options : List String
  correct_answer : String
deriving DecidableEq

/-- One render of the feedback block for an answered question, on the
pair (score, feedback_given flag): the score is incremented exactly
when the answer was correct and feedback was not yet flagged; the flag
is set unconditionally afterwards. -/
def quizAnswerFeedback (correct : Bool) (st : Nat × Bool) : Nat × Bool :=
  (if correct && !st.2 then st.1 + 1 else st.1, true)

/-- Iterated re-renders of the feedback block. -/
def quizFeedbackIter (correct : Bool) : Nat → Nat × Bool → Nat × Bool
  | 0, st => st
  | k + 1, st => quizFeedbackIter correct k (quizAnswerFeedback correct st)

/-- Score after one question is answered with `user_answer` and its
feedback view is rendered `renders` times (at least once happens before
Next can be pressed), starting with an unset feedback flag. -/
def answerQuestion (q : Question) (user_answer : String)
    (renders : Nat) (score : Nat) : Nat :=
  (quizFeedbackIter (user_answer == q.correct_answer) renders
    (score, false)).1

/-- Full-quiz run over (question, submitted answer, render count)
triples, threading the score. -/
def runQuizAux : List (Question × String × Nat) → Nat → Nat
  | [], score => score
  | (q, ans, k) :: rest, score => runQuizAux rest (answerQuestion q ans k score)

/-- Final score of a full quiz started by the Final Review handler
(which resets the score to 0) and answered throughout. -/
def runQuiz (qs : List Question) (answers : List String)
    (renders : List Nat) : Nat :=
  runQuizAux (qs.zip (answers.zip renders)) 0

/-- Number of submissions whose chosen option equals the correct
answer of their question. -/
def countCorrect (qs : List Question) (answers : List String) : Nat :=
  (qs.zip answers).countP (fun p => p.2 == p.1.correct_answer)

/-! ## Mini-quiz events of the quizzing phase (src/app.py lines
342-381).  The per-question Streamlit keys `mini_answer_submitted_i`,
`mini_user_answer_i`, `mini_feedback_given_i` are modelled as a local
record next to the session state. -/

/-- Per-question interaction keys of the mini quiz. -/
structure MiniQA where
  submitted : Bool
  user_answer : Option String
  feedback_given : Bool

/-- Submit of the mini-quiz form: records the answer and the submitted
flag; no other state is touched. -/
def miniSubmit (ans : String) (s : AppState) (m : MiniQA) :
    AppState × MiniQA :=
  if !m.submitted then
    (s, { m with submitted := true, user_answer := some ans })
  else (s, m)

/-- Render of the mini-quiz feedback block: in both the correct and
the incorrect branch only the feedback flag is set (the generated
explanation is display-only); the score is never touched. -/
def miniRenderFeedback (q : Question) (s : AppState) (m : MiniQA) :
    AppState × MiniQA :=
  if m.submitted then
    if m.user_answer.getD "" == q.correct_answer then
      (s, { m with feedback_given := true })
    else
      (s, { m with feedback_given := true })
  else (s, m)

/-- Continue button of the mini quiz: advances the question index. -/
def miniContinue (s : AppState) (m : MiniQA) : AppState × MiniQA :=
  ({ s with current_question_index := s.current_question_index + 1 }, m)

/-! ## RAG answering: `app.generate_answer` (src/app.py lines 58-96).
The embedding call, the similarity search and the model call are
explicit parameters; floats carry no information the claims need, so
embedding vectors are opaque lists. -/

/-- Embedding vector (component values are irrelevant to the claims). -/
abbrev Vec := List Int

/-- Row returned by `semantic_search`; the source reads its `chunk`
field. -/
structure DocRow where
  chunk : String

/-- Python exception escaping a modelled function. -/
inductive PyError where
  | indexError
deriving DecidableEq

/-- Opening of the prompt f-string of `generate_answer`, up to the
interpolated knowledge level. -/
def answerPromptPre : String :=
  "\n    You are an AI Learning Partner. The user you are helping has a knowledge level of \x27"

/-- Prompt text between the knowledge level and the query. -/
def answerPromptMid1 : String :=
  "\x27.\n    You must tailor your explanation\x27s depth and language to match this level.\n\n    A user has asked the following question: \""

/-- Prompt text between the query and the retrieved context. -/
def answerPromptMid2 : String :=
  "\"\n\n    Some context has been retrieved from a document they provided:\n    ---\n    Context:\n    "

/-- Prompt text after the context, up to the fallback instruction. -/
def answerPromptTail1 : String :=
  "\n    ---\n\n    Please follow these steps to answer the question:\n    1.  First, carefully analyze the provided context to see if it directly answers the question.\n    2.  If the context provides a good answer, use **only** that context, adapting it for the user\x27s knowledge level.\n    3.  If the context is empty or insufficient, "

/-- The general-knowledge fallback instruction inside the prompt. -/
def fallbackInstruction : String := "use your own general knowledge"

/-- Closing prompt text after the fallback instruction. -/
def answerPromptTail2 : String :=
  " to provide a complete and accurate response, still tailored to the user\x27s knowledge level.\n    "

/-- The hybrid prompt of `generate_answer`, assembled exactly in source
order; the concatenation of the literal pieces is the source f-string. -/
def answerPrompt (knowledge_level query context : String) : String :=
  answerPromptPre ++ knowledge_level ++ answerPromptMid1 ++ query ++
  answerPromptMid2 ++ context ++ answerPromptTail1 ++
  fallbackInstruction ++ answerPromptTail2

/-- Embedding of `app.generate_answer`.  The subscript
`generate_embeddings([query])[0]` raises IndexError when the embedding
call failed and returned the empty list; that line is outside the
try/except, which only guards the final model call. -/
def generate_answer (embed : List String → List Vec)
    (search : Vec → String → Nat → List DocRow)
    (model : String → Except String String)
    (query knowledge_level file_name : String) :
    Except PyError String :=
  match embed [query] with
  | [] => Except.error PyError.indexError
  | query_embedding :: _ =>
    let relevant_chunks := search query_embedding file_name 10
    let context := String.intercalate "\n"
      (relevant_chunks.map DocRow.chunk)
    let prompt := answerPrompt knowledge_level query context
    match model prompt with
    | Except.ok t => Except.ok t
    | Except.error e => Except.ok ("An error occurred: " ++ e)

/-! ## Web search and scrape: `utils/web_scraper.search_and_scrape`
(src/utils/web_scraper.py lines 17-58).  The DuckDuckGo search and the
article download/parse are explicit fallible parameters; any exception
inside the try block is caught and yields `("", None)`. -/

/-- Python string slice `t[:n]` (character-wise). -/
def pySlice (t : String) (n : Nat) : String := String.mk (t.data.take n)

/-- Embedding of `search_and_scrape`.  `searchResult` is the list of
result URLs of `ddgs.text(query, max_results=1)` (or a raised
exception); `getArticleText` is the download-and-parse of the first
URL (or a raised exception). -/
def search_and_scrape (searchResult : Except String (List String))
    (getArticleText : String → Except String String) :
    String × Option String :=
  match searchResult with
  | Except.error _ => ("", none)
  | Except.ok results =>
    match results with
    | [] => ("Could not find any web results.", none)
    | url :: _ =>
      match getArticleText url with
      | Except.error _ => ("", none)
      | Except.ok text =>
        if text = "" then ("", none)
        else (pySlice text 2000, some url)

/-! ## Document ingestion: `app.process_file` with
`supabase_handler.upload_pdf` and `supabase_handler.store_embeddings`
(src/app.py lines 120-136, src/utils/supabase_handler.py lines
13-39). -/

/-- Row of the `documents` table. -/
structure DocDBRow where
  file_name : String
  chunk : String
  embedding : Vec
deriving DecidableEq

/-- Stored rows of the `documents` table. -/
abbrev DocDB := List DocDBRow

/-- Occurrence test of Python `needle in haystack` on character
lists. -/
def strContainsAux (needle : List Char) : List Char → Bool
  | [] => needle.isEmpty
  | c :: cs => listStartsWith needle (c :: cs) || strContainsAux needle cs

/-- Embedding of the Python substring test `needle in haystack`. -/
def pyIn (needle haystack : String) : Bool :=
  strContainsAux needle.data haystack.data

/-- Modelled from the spec: the batch insert into the `documents`
table. The table schema and its constraints are not under src; the
spec (sections 4.3 and 7) requires the store to deduplicate identical
names and the source recovers from an error whose text mentions
`Duplicate`, so the insert is modelled as rejecting rows whose
`file_name` is already stored, raising a duplicate-key error, and
appending the rows otherwise. -/
def insertDocuments (db : DocDB) (rows : List DocDBRow) :
    Except String DocDB :=
  if rows.any (fun r => db.any (fun r0 => r0.file_name = r.file_name)) then
    Except.error "Duplicate key value violates unique constraint"
  else Except.ok (db ++ rows)

/-- Embedding of `store_embeddings`: build one row per (chunk,
embedding) pair (Python `zip` truncates to the shorter list) and insert
them in a single batch. -/
def store_embeddings (db : DocDB) (file_name : String)
    (text_chunks : List String) (embeddings : List Vec) :
    Except String DocDB :=
  insertDocuments db ((text_chunks.zip embeddings).map
    (fun p => { file_name := file_name, chunk := p.1, embedding := p.2 }))

/-- Embedding of `upload_pdf` on the storage bucket: the upsert option
makes a re-upload of an existing path succeed by overwriting it, so on
the name set it is insert-if-absent. -/
def upload_pdf (bucket : List String) (destination_path : String) :
    List String :=
  if bucket.contains destination_path then bucket
  else bucket ++ [destination_path]

/-- Embedding of `app.process_file`: upload the file, chunk the
extracted text, embed the chunks, store the rows; an error mentioning
`Duplicate` is treated as success with the store unchanged, any other
error as failure.  `fileText` stands for `extract_text(pdf_bytes)`,
`chunker` for `textwrap.wrap(text, 1000)` and `embedder` for
`generate_embeddings` - all external collaborators. -/
def process_file (bucket : List String) (db : DocDB)
    (original_filename : String) (fileText : String)
    (chunker : String → List String)
    (embedder : List String → List Vec) :
    (List String × DocDB) × Bool :=
  let bucket1 := upload_pdf bucket original_filename
  let chunks := chunker fileText
  let embeddings := embedder chunks
  match store_embeddings db original_filename chunks embeddings with
  | Except.ok db1 => ((bucket1, db1), true)
  | Except.error e =>
    if pyIn "Duplicate" e then ((bucket1, db), true)
    else ((bucket1, db), false)

/-! ## Guided-session step progression (src/app.py lines 382-399).
After the mini quiz of a step is finished, `lesson_step` is
incremented, the goal progress is updated to the new value, and the
session either moves to the next teaching phase or ends. -/

/-- Slice of the session state driving step progression. -/
structure GuidedSession where
  plan : List String
  lesson_step : Nat
  in_guided_session : Bool

/-- Session state right after the Start Guided Session handler ran
with a parsed plan. -/
def startSessionProgress (plan : List String) : GuidedSession :=
  { plan := plan, lesson_step := 0, in_guided_session := true }

/-- Embedding of the mini-quiz completion block: while the guided
session is active, increment `lesson_step`, emit the
`update_goal_progress` call with the new value, and stay in the session
only while steps remain.  Outside the guided session the block never
renders, so nothing happens and no update is emitted. -/
def completeStep (s : GuidedSession) : GuidedSession × Option Nat :=
  if s.in_guided_session then
    let newStep := s.lesson_step + 1
    ({ s with lesson_step := newStep,
              in_guided_session := newStep < s.plan.length }, some newStep)
  else (s, none)

/-- Trace of `k` mini-quiz completion events: final state and the list
of goal-progress values sent to `update_goal_progress`, in order. -/
def runSteps : Nat → GuidedSession → GuidedSession × List Nat
  | 0, s => (s, [])
  | k + 1, s =>
    let r1 := completeStep s
    let r2 := runSteps k r1.1
    (r2.1, r1.2.toList ++ r2.2)

/-! ## Sample states used by concrete witnesses and counterexamples -/

/-- Fresh lobby state, as initialised at src/app.py lines 163-177. -/
def lobbyState : AppState :=
  { messages := [], in_guided_session := false, lesson_plan := none,
    lesson_step := 0, quiz_mode := false, quiz_questions := none,
    current_question_index := 0, score := 0,
    step_phase := StepPhase.teaching, current_goal := none }

/-- Guided-session state in the teaching phase of step 0. -/
def teachingState : AppState :=
  { lobbyState with
    in_guided_session := true,
    lesson_plan := some ["A", "B"],
    messages := [{ role := "assistant", content := "explanation text" }] }

/-- Post-quiz ENDED state with a leftover plan and transcript. -/
def endedQuizState : AppState :=
  { lobbyState with
    quiz_mode := true,
    lesson_plan := some ["A", "B"],
    messages := [{ role := "user", content := "hi" }],
    score := 3 }

/-! ## Helper lemmas -/

/-- A suffix of a list is the drop at the complementary index. -/
theorem suffix_eq_drop {l t : List Char} (h : t <:+ l) :
    l.drop (l.length - t.length) = t := by
  obtain ⟨s, rfl⟩ := h
  simp [List.drop_left]

/-- If the pattern fails at every position of `l`, it fails on every
suffix of `l`. -/
theorem noMatch_of_ball (l : List Char)
    (H : ∀ i < l.length, matchNumberedItem (l.drop i) = none) :
    ∀ t, t <:+ l → matchNumberedItem t = none := by
  intro t ht
  rcases t with _ | ⟨c, t'⟩
  · rfl
  · have hlen : (c :: t').length ≤ l.length := ht.length_le
    have hpos : 0 < (c :: t').length := by simp
    have hlt : l.length - (c :: t').length < l.length := by omega
    have := H _ hlt
    rwa [suffix_eq_drop ht] at this

/-- The findall scan yields nothing when the pattern fails on every
suffix of the input. -/
theorem findNumberedAux_eq_nil (l : List Char)
    (H : ∀ t, t <:+ l → matchNumberedItem t = none) :
    ∀ (fuel : Nat) (cs : List Char), cs <:+ l →
      findNumberedAux fuel cs = [] := by
  intro fuel
  induction fuel with
  | zero => intro cs _; rfl
  | succ n ih =>
    intro cs hcs
    cases cs with
    | nil => rfl
    | cons c cs' =>
      have hm := H _ hcs
      simp only [findNumberedAux, hm]
      exact ih cs' ((List.suffix_cons c cs').trans hcs)

/-! ## Claim theorems -/

/-- C1: `generate_lesson_plan` recovers the ordered sequence of texts
following numbered-list markers; on the reference output
`"1. A\n2. B\n3. C\n4. D"` the plan is `["A","B","C","D"]`, and for
any output in which the numbered-line pattern matches nowhere the plan
is `None` and the Start Guided Session handler leaves the state
untouched: the LOBBY-to-TEACHING transition does not occur, in
particular `in_guided_session` stays false and no goal is created. -/
theorem C1_lesson_plan_parsing :
    generate_lesson_plan "1. A\n2. B\n3. C\n4. D" =
      some ["A", "B", "C", "D"] ∧
    ∀ output : String,
      (∀ i < output.data.length,
        matchNumberedItem (output.data.drop i) = none) →
      generate_lesson_plan output = none ∧
      ∀ (s : AppState) (user_id : Nat) (topic goal : String)
        (explain : String → String),
        startGuidedSession s user_id topic goal explain output = s := by
  constructor
  · decide
  · intro output H
    have h0 : findNumbered output.data = [] :=
      findNumberedAux_eq_nil output.data (noMatch_of_ball output.data H)
        _ _ (List.suffix_refl _)
    have hplan : generate_lesson_plan output = none := by
      simp [generate_lesson_plan, h0]
    refine ⟨hplan, ?_⟩
    intro s user_id topic goal explain
    unfold startGuidedSession
    rw [hplan]
    split <;> rfl

/-- Witness for C1 at a concrete output with no numbered lines and a
concrete lobby state. -/
theorem C1_lesson_plan_parsing_witness :
    generate_lesson_plan "no plan here" = none ∧
    startGuidedSession lobbyState 7 "Photosynthesis" "pass a quiz"
      (fun t => t) "no plan here" = lobbyState := by
  have h := C1_lesson_plan_parsing.2 "no plan here" (by decide)
  exact ⟨h.1, h.2 lobbyState 7 "Photosynthesis" "pass a quiz" (fun t => t)⟩

/-- Once the feedback flag is set, further re-renders of the feedback
block leave the score unchanged. -/
theorem quizFeedbackIter_flag (correct : Bool) :
    ∀ (k score : Nat), quizFeedbackIter correct k (score, true) = (score, true) := by
  intro k
  induction k with
  | zero => intro score; rfl
  | succ n ih =>
    intro score
    simp [quizFeedbackIter, quizAnswerFeedback, ih]

/-- Score contribution of one answered question: exactly one point when
the chosen option equals the correct answer, however often the feedback
view is re-rendered. -/
theorem answerQuestion_eq (q : Question) (ans : String)
    (renders score : Nat) (h : 1 ≤ renders) :
    answerQuestion q ans renders score =
      score + (if ans == q.correct_answer then 1 else 0) := by
  obtain ⟨k, rfl⟩ : ∃ k, renders = k + 1 := ⟨renders - 1, by omega⟩
  unfold answerQuestion
  cases hc : (ans == q.correct_answer) <;>
    simp [quizFeedbackIter, quizAnswerFeedback, hc, quizFeedbackIter_flag]

/-- Accumulator form of the full-quiz run: the final score is the
initial score plus the number of correct submissions. -/
theorem runQuizAux_eq :
    ∀ (l : List (Question × String × Nat)) (score : Nat),
      (∀ t ∈ l, 1 ≤ t.2.2) →
      runQuizAux l score =
        score + l.countP (fun t => t.2.1 == t.1.correct_answer) := by
  intro l
  induction l with
  | nil => intro score _; simp [runQuizAux]
  | cons t rest ih =>
    obtain ⟨q, ans, k⟩ := t
    intro score h
    have hk : 1 ≤ k := h _ (List.mem_cons_self _ _)
    have hrest := ih (score + (if ans == q.correct_answer then 1 else 0))
      (fun t ht => h t (List.mem_cons_of_mem _ ht))
    simp only [runQuizAux, answerQuestion_eq q ans k score hk, hrest,
      List.countP_cons]
    cases hc : (ans == q.correct_answer) <;> simp [hc] <;> omega

/-- Zipped count of correct submissions agrees with `countCorrect`. -/
theorem countP_zip_renders :
    ∀ (qs : List Question) (answers : List String) (renders : List Nat),
      answers.length = qs.length → renders.length = qs.length →
      (qs.zip (answers.zip renders)).countP
          (fun t => t.2.1 == t.1.correct_answer) =
        countCorrect qs answers := by
  intro qs
  induction qs with
  | nil => intro answers renders _ _; simp [countCorrect]
  | cons q qs ih =>
    intro answers renders h1 h2
    cases answers with
    | nil => simp at h1
    | cons a as =>
      cases renders with
      | nil => simp at h2
      | cons r rs =>
        simp only [List.length_cons] at h1 h2
        have hih := ih as rs (by omega) (by omega)
        simp only [countCorrect] at hih ⊢
        simp only [List.zip_cons_cons, List.countP_cons, hih]

/-- C2: for a full quiz of N questions answered throughout, the final
score equals the number of submissions whose chosen option equals the
correct answer of the question, and is at most N; each question
contributes at most once regardless of how often its feedback view is
re-rendered (the render counts only need to be positive). -/
theorem C2_quiz_scoring :
    ∀ (qs : List Question) (answers : List String) (renders : List Nat),
      answers.length = qs.length → renders.length = qs.length →
      (∀ r ∈ renders, 1 ≤ r) →
      runQuiz qs answers renders = countCorrect qs answers ∧
      runQuiz qs answers renders ≤ qs.length := by
  intro qs answers renders h1 h2 h3
  have hmem : ∀ t ∈ qs.zip (answers.zip renders), 1 ≤ t.2.2 := by
    intro t ht
    obtain ⟨q, ans, k⟩ := t
    have h4 := (List.of_mem_zip ht).2
    exact h3 _ (List.of_mem_zip h4).2
  have hrun : runQuiz qs answers renders = countCorrect qs answers := by
    unfold runQuiz
    rw [runQuizAux_eq _ 0 hmem, countP_zip_renders qs answers renders h1 h2]
    omega
  refine ⟨hrun, ?_⟩
  rw [hrun]
  calc countCorrect qs answers ≤ (qs.zip answers).length :=
        List.countP_le_length _
    _ ≤ qs.length := by rw [List.length_zip]; omega

/-- Witness for C2 on a concrete 2-question quiz with one correct and
one wrong submission and uneven re-render counts. -/
theorem C2_quiz_scoring_witness :
    runQuiz
        [ { question := "Q1", options := ["a", "b", "c", "d"],
            correct_answer := "a" },
          { question := "Q2", options := ["a", "b", "c", "d"],
            correct_answer := "b" } ]
        ["a", "c"] [3, 1] =
      countCorrect
        [ { question := "Q1", options := ["a", "b", "c", "d"],
            correct_answer := "a" },
          { question := "Q2", options := ["a", "b", "c", "d"],
            correct_answer := "b" } ]
        ["a", "c"] ∧
    runQuiz
        [ { question := "Q1", options := ["a", "b", "c", "d"],
            correct_answer := "a" },
          { question := "Q2", options := ["a", "b", "c", "d"],
            correct_answer := "b" } ]
        ["a", "c"] [3, 1] ≤ 2 :=
  C2_quiz_scoring _ _ _ (by decide) (by decide) (by decide)

/-- C10: mini-quiz events of the quizzing phase - submitting an
answer, rendering feedback for a correct or incorrect answer, and
continuing to the next question - never modify the score field; the
increment lives only in the full-quiz feedback block, which does add a
point on a correct answer with an unset feedback flag. -/
theorem C10_mini_quiz_score_frame :
    ∀ (s : AppState) (m : MiniQA) (ans : String) (q : Question),
      (miniSubmit ans s m).1.score = s.score ∧
      (miniRenderFeedback q s m).1.score = s.score ∧
      (miniContinue s m).1.score = s.score ∧
      ∀ score : Nat,
        quizAnswerFeedback true (score, false) = (score + 1, true) := by
  intro s m ans q
  refine ⟨?_, ?_, rfl, fun score => rfl⟩
  · unfold miniSubmit
    split <;> rfl
  · unfold miniRenderFeedback
    split
    · split <;> rfl
    · rfl

/-- Witness for C10 at a concrete quizzing-phase state and question. -/
theorem C10_mini_quiz_score_frame_witness :
    (miniSubmit "b"
        { teachingState with step_phase := StepPhase.quizzing }
        { submitted := false, user_answer := none,
          feedback_given := false }).1.score =
      { teachingState with step_phase := StepPhase.quizzing }.score ∧
    (miniRenderFeedback
        { question := "Q", options := ["a", "b", "c", "d"],
          correct_answer := "a" }
        { teachingState with step_phase := StepPhase.quizzing }
        { submitted := true, user_answer := some "b",
          feedback_given := false }).1.score =
      { teachingState with step_phase := StepPhase.quizzing }.score ∧
    (miniContinue
        { teachingState with step_phase := StepPhase.quizzing }
        { submitted := true, user_answer := some "b",
          feedback_given := true }).1.score =
      { teachingState with step_phase := StepPhase.quizzing }.score ∧
    ∀ score : Nat,
      quizAnswerFeedback true (score, false) = (score + 1, true) := by
  refine ⟨?_, ?_, ?_, ?_⟩
  · exact (C10_mini_quiz_score_frame _
      { submitted := false, user_answer := none, feedback_given := false }
      "b" { question := "Q", options := ["a", "b", "c", "d"],
            correct_answer := "a" }).1
  · exact (C10_mini_quiz_score_frame _
      { submitted := true, user_answer := some "b", feedback_given := false }
      "b" { question := "Q", options := ["a", "b", "c", "d"],
            correct_answer := "a" }).2.1
  · exact (C10_mini_quiz_score_frame _
      { submitted := true, user_answer := some "b", feedback_given := true }
      "b" { question := "Q", options := ["a", "b", "c", "d"],
            correct_answer := "a" }).2.2.1
  · exact (C10_mini_quiz_score_frame lobbyState
      { submitted := false, user_answer := none, feedback_given := false }
      "b" { question := "Q", options := ["a", "b", "c", "d"],
            correct_answer := "a" }).2.2.2

/-- C3: when retrieval returns no chunks, `generate_answer` builds an
empty context string, still issues the model call on a prompt that
contains the general-knowledge fallback instruction, and returns
whatever the model produced (converting a model exception into an
inline error string); it never early-returns a fixed not-found
message. -/
theorem C3_rag_fallback :
    ∀ (embed : List String → List Vec)
      (search : Vec → String → Nat → List DocRow)
      (model : String → Except String String)
      (query knowledge_level file_name : String) (v : Vec),
      embed [query] = [v] →
      (∀ vec name k, search vec name k = []) →
      String.intercalate "\n"
          ((search v file_name 10).map DocRow.chunk) = "" ∧
      (∀ t, model (answerPrompt knowledge_level query "") = Except.ok t →
        generate_answer embed search model query knowledge_level
          file_name = Except.ok t) ∧
      (∀ e, model (answerPrompt knowledge_level query "") =
          Except.error e →
        generate_answer embed search model query knowledge_level
          file_name = Except.ok ("An error occurred: " ++ e)) ∧
      (∃ l1 l2 : List Char,
        (answerPrompt knowledge_level query "").data =
          l1 ++ fallbackInstruction.data ++ l2) := by
  intro embed search model query kl fn v hemb hsearch
  have hctx : String.intercalate "\n"
      ((search v fn 10).map DocRow.chunk) = "" := by
    rw [hsearch]; rfl
  have hga : generate_answer embed search model query kl fn =
      match model (answerPrompt kl query "") with
      | Except.ok t => Except.ok t
      | Except.error e => Except.ok ("An error occurred: " ++ e) := by
    unfold generate_answer
    rw [hemb]
    simp only [hsearch, List.map_nil]
    rfl
  refine ⟨hctx, ?_, ?_, ?_⟩
  · intro t ht
    rw [hga, ht]
  · intro e he
    rw [hga, he]
  · refine ⟨(answerPromptPre ++ kl ++ answerPromptMid1 ++ query ++
      answerPromptMid2 ++ "" ++ answerPromptTail1).data,
      answerPromptTail2.data, ?_⟩
    simp [answerPrompt, String.data_append, List.append_assoc]

/-- Witness for C3 with a one-vector embedder, an empty retrieval and a
model that answers from general knowledge. -/
theorem C3_rag_fallback_witness :
    generate_answer (fun _ => [[1]]) (fun _ _ _ => [])
        (fun _ => Except.ok "general knowledge reply")
        "what is photosynthesis" "Beginner" "doc.pdf" =
      Except.ok "general knowledge reply" :=
  (C3_rag_fallback (fun _ => [[1]]) (fun _ _ _ => [])
      (fun _ => Except.ok "general knowledge reply")
      "what is photosynthesis" "Beginner" "doc.pdf" [1] rfl
      (fun _ _ _ => rfl)).2.1 "general knowledge reply" rfl

/-- C6 (code behaviour at the failing input): when the embedding call
fails and returns the empty list, the subscript
`generate_embeddings([query])[0]` in `generate_answer` raises
IndexError - the function does not complete with an inline error
message, contradicting the containment the spec requires. -/
theorem C6_embedding_failure_raises :
    ∀ (embed : List String → List Vec)
      (search : Vec → String → Nat → List DocRow)
      (model : String → Except String String)
      (query knowledge_level file_name : String),
      embed [query] = [] →
      generate_answer embed search model query knowledge_level
        file_name = Except.error PyError.indexError := by
  intro embed search model query kl fn h
  unfold generate_answer
  rw [h]

/-- Witness for C6 at a concrete failing embedder. -/
theorem C6_embedding_failure_raises_witness :
    generate_answer (fun _ => []) (fun _ _ _ => [])
        (fun _ => Except.ok "reply") "what is photosynthesis"
        "Beginner" "doc.pdf" = Except.error PyError.indexError :=
  C6_embedding_failure_raises (fun _ => []) (fun _ _ _ => [])
    (fun _ => Except.ok "reply") "what is photosynthesis" "Beginner"
    "doc.pdf" rfl

/-- Counterexample to C4 as stated: the model output `42` is valid JSON
but in no sense a question list, yet `generate_quiz` returns it (not
`None`) and the teaching-phase handler accepts the truthy value and
advances `step_phase` to quizzing. -/
theorem C4_counterexample :
    (generate_quiz (fun _ => Except.ok "42") "ctx" 2).isSome = true ∧
    isQuestionList (generate_quiz (fun _ => Except.ok "42") "ctx" 2) =
      false ∧
    teachingState.step_phase = StepPhase.teaching ∧
    (teachingQuizStart teachingState
        (fun _ => Except.ok "42")).step_phase = StepPhase.quizzing :=
  ⟨rfl, rfl, rfl, rfl⟩

/-- C4 (amended): `generate_quiz` returns `None` exactly on outputs
whose cleaned text is not valid JSON (or when the model call itself
fails); on a `None` (or otherwise falsy) quiz the teaching-phase and
final-review handlers leave the whole session state unchanged, in
particular `step_phase`, `quiz_questions`, `lesson_step` and `score`.
Valid JSON of the wrong shape is not rejected (see the
counterexample). -/
theorem C4_amended_parse_failure :
    (∀ (model : String → Except String String) (context : String)
       (n : Nat) (out : String),
       model (quizPrompt context n) = Except.ok out →
       json_loads (pyCleanup out) = none →
       generate_quiz model context n = none) ∧
    (∀ (s : AppState) (model : String → Except String String),
       generate_quiz model (teachingContext s) 2 = none →
       teachingQuizStart s model = s) ∧
    (∀ (s : AppState) (model : String → Except String String),
       generate_quiz model (finalReviewContext s) 5 = none →
       finalReviewQuizStart s model = s) := by
  refine ⟨?_, ?_, ?_⟩
  · intro model context n out hmodel hjson
    simp only [generate_quiz, hmodel, hjson]
  · intro s model h
    unfold teachingQuizStart
    rw [h]
    split <;> rfl
  · intro s model h
    unfold finalReviewQuizStart
    rw [h]

/-- Witness for C4 (amended) at the unparseable output `not json`. -/
theorem C4_amended_parse_failure_witness :
    generate_quiz (fun _ => Except.ok "not json") "ctx" 2 = none ∧
    teachingQuizStart teachingState (fun _ => Except.ok "not json") =
      teachingState ∧
    finalReviewQuizStart teachingState
        (fun _ => Except.ok "not json") = teachingState :=
  ⟨C4_amended_parse_failure.1 (fun _ => Except.ok "not json") "ctx" 2
      "not json" rfl rfl,
    C4_amended_parse_failure.2.1 teachingState
      (fun _ => Except.ok "not json") rfl,
    C4_amended_parse_failure.2.2 teachingState
      (fun _ => Except.ok "not json") rfl⟩

/-- Field-level description of `completeStep` inside an active guided
session. -/
theorem completeStep_true {s : GuidedSession}
    (hg : s.in_guided_session = true) :
    (completeStep s).2 = some (s.lesson_step + 1) ∧
    (completeStep s).1.lesson_step = s.lesson_step + 1 ∧
    (completeStep s).1.plan = s.plan ∧
    ((completeStep s).1.in_guided_session = true ↔
      s.lesson_step + 1 < s.plan.length) := by
  simp [completeStep, hg]

/-- Outside the guided session the completion block does nothing. -/
theorem completeStep_false {s : GuidedSession}
    (hg : s.in_guided_session = false) :
    completeStep s = (s, none) := by
  simp [completeStep, hg]

/-- Invariant of the step-progression trace: under the invariant that
an active session still has steps left, the emitted progress values
are strictly increasing, bounded by the current step from below and by
the plan length from above, and `lesson_step` never decreases. -/
theorem runSteps_spec :
    ∀ (k : Nat) (s : GuidedSession),
      (s.in_guided_session = true → s.lesson_step < s.plan.length) →
      List.Chain' (· < ·) (runSteps k s).2 ∧
      (∀ u ∈ (runSteps k s).2, s.lesson_step < u ∧ u ≤ s.plan.length) ∧
      s.lesson_step ≤ (runSteps k s).1.lesson_step ∧
      (runSteps k s).1.plan = s.plan := by
  intro k
  induction k with
  | zero => intro s h; simp [runSteps]
  | succ n ih =>
    intro s h
    cases hg : s.in_guided_session with
    | false =>
      have hih := ih s h
      simp only [runSteps, completeStep_false hg, Option.toList_none,
        List.nil_append]
      exact hih
    | true =>
      have hlt := h hg
      obtain ⟨h1, h2, h3, h4⟩ := completeStep_true hg
      have hih := ih (completeStep s).1 (by rw [h2, h3]; exact h4.mp)
      obtain ⟨ihchain, ihmem, ihstep, ihplan⟩ := hih
      simp only [runSteps, h1, Option.toList_some, List.cons_append,
        List.nil_append]
      refine ⟨?_, ?_, ?_, ?_⟩
      · rw [List.chain'_cons']
        refine ⟨?_, ihchain⟩
        intro y hy
        have hmem := ihmem y (List.mem_of_mem_head? hy)
        omega
      · intro u hu
        rcases List.mem_cons.mp hu with rfl | hu2
        · omega
        · have := ihmem u hu2
          rw [h2, h3] at this
          omega
      · calc s.lesson_step ≤ (completeStep s).1.lesson_step := by omega
          _ ≤ (runSteps n (completeStep s).1).1.lesson_step := ihstep
      · rw [ihplan, h3]

/-- C5: across any number of step completions of a guided session
started on a non-empty parsed plan, the recorded goal progress is
monotonically non-decreasing from the stored initial 0 (the emitted
values are in fact strictly increasing, each passing the incremented
`lesson_step`), never exceeds the `total_steps` recorded at goal
creation (the parsed plan length), and `lesson_step` itself never
decreases. -/
theorem C5_goal_progress_monotone :
    ∀ (plan : List String) (k user_id : Nat) (topic goal : String),
      0 < plan.length →
      List.Chain' (· ≤ ·)
        ((create_learning_goal user_id topic goal plan.length).progress ::
          (runSteps k (startSessionProgress plan)).2) ∧
      List.Chain' (· < ·) (runSteps k (startSessionProgress plan)).2 ∧
      (∀ u ∈ (runSteps k (startSessionProgress plan)).2,
        u ≤ (create_learning_goal user_id topic goal
          plan.length).total_steps) ∧
      (startSessionProgress plan).lesson_step ≤
        (runSteps k (startSessionProgress plan)).1.lesson_step := by
  intro plan k user_id topic goal hpos
  obtain ⟨hchain, hmem, hstep, _⟩ :=
    runSteps_spec k (startSessionProgress plan) (fun _ => hpos)
  refine ⟨?_, hchain, ?_, hstep⟩
  · rw [List.chain'_cons']
    refine ⟨?_, hchain.imp (fun a b hab => Nat.le_of_lt hab)⟩
    intro y _
    exact Nat.zero_le y
  · intro u hu
    exact (hmem u hu).2

/-- Witness for C5 on a two-step plan run for four events (one more
than the plan has steps). -/
theorem C5_goal_progress_monotone_witness :
    List.Chain' (· ≤ ·)
      ((create_learning_goal 1 "Photosynthesis" "pass a quiz"
          (["light reactions", "dark reactions"] : List String).length).progress ::
        (runSteps 4 (startSessionProgress
          ["light reactions", "dark reactions"])).2) ∧
    List.Chain' (· < ·)
      (runSteps 4 (startSessionProgress
        ["light reactions", "dark reactions"])).2 ∧
    (∀ u ∈ (runSteps 4 (startSessionProgress
        ["light reactions", "dark reactions"])).2,
      u ≤ (create_learning_goal 1 "Photosynthesis" "pass a quiz"
        (["light reactions", "dark reactions"] : List String).length).total_steps) ∧
    (startSessionProgress
        ["light reactions", "dark reactions"]).lesson_step ≤
      (runSteps 4 (startSessionProgress
        ["light reactions", "dark reactions"])).1.lesson_step :=
  C5_goal_progress_monotone ["light reactions", "dark reactions"] 4 1
    "Photosynthesis" "pass a quiz" (by decide)

/-- Characterisation of the empty string through its character list. -/
theorem string_mk_eq_empty_iff (l : List Char) :
    String.mk l = "" ↔ l = [] := by
  constructor
  · intro h
    exact congrArg String.data h
  · intro h
    rw [h]

/-- Counterexample to C7 as stated: when the search returns no
results, `search_and_scrape` returns the pair
`("Could not find any web results.", None)` - a non-empty text without
a source URL, which is neither of the two claimed result shapes. -/
theorem C7_counterexample :
    ¬(((search_and_scrape (Except.ok [])
          (fun _ => Except.ok "text")).1 ≠ "" ∧
       (search_and_scrape (Except.ok [])
          (fun _ => Except.ok "text")).1.length ≤ 2000 ∧
       (search_and_scrape (Except.ok [])
          (fun _ => Except.ok "text")).2.isSome = true) ∨
      ((search_and_scrape (Except.ok [])
          (fun _ => Except.ok "text")).1 = "" ∧
       (search_and_scrape (Except.ok [])
          (fun _ => Except.ok "text")).2 = none)) := by
  decide

/-- C7 (amended): `search_and_scrape` returns exactly one of three
shapes: the fixed no-results message paired with no URL, the empty
string paired with no URL on any failure, or a non-empty article text
of at most 2000 characters paired with the scraped source URL. -/
theorem C7_amended_result_shapes :
    ∀ (searchResult : Except String (List String))
      (getArticleText : String → Except String String),
      search_and_scrape searchResult getArticleText =
          ("Could not find any web results.", none) ∨
      search_and_scrape searchResult getArticleText = ("", none) ∨
      ∃ url text,
        getArticleText url = Except.ok text ∧ text ≠ "" ∧
        search_and_scrape searchResult getArticleText =
          (pySlice text 2000, some url) ∧
        pySlice text 2000 ≠ "" ∧ (pySlice text 2000).length ≤ 2000 := by
  intro sr get
  rcases sr with e | results
  · exact Or.inr (Or.inl rfl)
  · rcases results with _ | ⟨url, rest⟩
    · exact Or.inl rfl
    · rcases hget : get url with e | text
      · refine Or.inr (Or.inl ?_)
        simp [search_and_scrape, hget]
      · by_cases ht : text = ""
        · refine Or.inr (Or.inl ?_)
          simp [search_and_scrape, hget, ht]
        · refine Or.inr (Or.inr ⟨url, text, hget, ht, ?_, ?_, ?_⟩)
          · simp [search_and_scrape, hget, ht]
          · intro hc
            have h1 : text.data.take 2000 = [] :=
              (string_mk_eq_empty_iff _).mp hc
            have h2 : text.data = [] := by
              rcases List.take_eq_nil_iff.mp h1 with h | h
              · omega
              · exact h
            exact ht ((string_mk_eq_empty_iff text.data).mpr h2)
          · show (text.data.take 2000).length ≤ 2000
            rw [List.length_take]
            omega

/-- C8: re-ingesting a document under an identical name does not raise
to the caller - `process_file` returns True both times, treating the
duplicate-key error of the second batch insert as success-equivalent -
and the second run leaves the store unchanged, so exactly one set of
chunk rows is reachable under that name. -/
theorem C8_reingest_idempotent :
    ∀ (bucket : List String) (db : DocDB) (fn fileText : String)
      (chunker : String → List String)
      (embedder : List String → List Vec),
      (∀ r ∈ db, r.file_name ≠ fn) →
      chunker fileText ≠ [] →
      (embedder (chunker fileText)).length = (chunker fileText).length →
      (process_file bucket db fn fileText chunker embedder).2 = true ∧
      (process_file
          (process_file bucket db fn fileText chunker embedder).1.1
          (process_file bucket db fn fileText chunker embedder).1.2
          fn fileText chunker embedder).2 = true ∧
      (process_file
          (process_file bucket db fn fileText chunker embedder).1.1
          (process_file bucket db fn fileText chunker embedder).1.2
          fn fileText chunker embedder).1.2 =
        (process_file bucket db fn fileText chunker embedder).1.2 ∧
      ((process_file
          (process_file bucket db fn fileText chunker embedder).1.1
          (process_file bucket db fn fileText chunker embedder).1.2
          fn fileText chunker embedder).1.2.filter
            (fun row => row.file_name = fn)).map DocDBRow.chunk =
        chunker fileText := by
  intro bucket db fn fileText chunker embedder hdb hch hlen
  set chunks := chunker fileText with hchunks
  set embs := embedder chunks with hembs
  set rows : List DocDBRow := (chunks.zip embs).map
    (fun p => { file_name := fn, chunk := p.1, embedding := p.2 }) with hrows
  have hrowname : ∀ r ∈ rows, r.file_name = fn := by
    intro r hr
    rw [hrows] at hr
    obtain ⟨p, _, rfl⟩ := List.mem_map.mp hr
    rfl
  have hrowsne : rows ≠ [] := by
    rw [hrows]
    intro hcontr
    have : (chunks.zip embs).length = 0 := by
      have := congrArg List.length hcontr
      simpa using this
    rw [List.length_zip] at this
    have h0 : chunks.length ≠ 0 := by
      intro h
      exact hch (List.length_eq_zero.mp h)
    omega
  have hcond1 : (rows.any (fun r =>
      db.any (fun r0 => r0.file_name = r.file_name))) = false := by
    rw [List.any_eq_false]
    intro r hr
    rw [Bool.not_eq_true, List.any_eq_false]
    intro r0 hr0
    simp only [decide_eq_true_eq]
    rw [hrowname r hr]
    exact hdb r0 hr0
  have hstore1 : store_embeddings db fn chunks embs =
      Except.ok (db ++ rows) := by
    unfold store_embeddings insertDocuments
    rw [← hrows, hcond1]
    simp
  have hp1 : process_file bucket db fn fileText chunker embedder =
      ((upload_pdf bucket fn, db ++ rows), true) := by
    show (match store_embeddings db fn chunks embs with
      | Except.ok db1 => ((upload_pdf bucket fn, db1), true)
      | Except.error e =>
        if pyIn "Duplicate" e then ((upload_pdf bucket fn, db), true)
        else ((upload_pdf bucket fn, db), false)) =
      ((upload_pdf bucket fn, db ++ rows), true)
    rw [hstore1]
  have hcond2 : (rows.any (fun r =>
      (db ++ rows).any (fun r0 => r0.file_name = r.file_name))) = true := by
    rw [List.any_eq_true]
    obtain ⟨r, hr⟩ : ∃ r, r ∈ rows := by
      rcases rows with _ | ⟨r, rs⟩
      · exact absurd rfl hrowsne
      · exact ⟨r, List.mem_cons_self r rs⟩
    refine ⟨r, hr, ?_⟩
    rw [List.any_eq_true]
    exact ⟨r, List.mem_append_right db hr, by simp⟩
  have hstore2 : store_embeddings (db ++ rows) fn chunks embs =
      Except.error "Duplicate key value violates unique constraint" := by
    unfold store_embeddings insertDocuments
    rw [← hrows, hcond2]
    simp
  have hp2 : process_file (upload_pdf bucket fn) (db ++ rows) fn fileText
      chunker embedder =
      ((upload_pdf (upload_pdf bucket fn) fn, db ++ rows), true) := by
    show (match store_embeddings (db ++ rows) fn chunks embs with
      | Except.ok db1 => ((upload_pdf (upload_pdf bucket fn) fn, db1), true)
      | Except.error e =>
        if pyIn "Duplicate" e then
          ((upload_pdf (upload_pdf bucket fn) fn, db ++ rows), true)
        else ((upload_pdf (upload_pdf bucket fn) fn, db ++ rows), false)) =
      ((upload_pdf (upload_pdf bucket fn) fn, db ++ rows), true)
    rw [hstore2]
    rfl
  refine ⟨?_, ?_, ?_, ?_⟩
  · rw [hp1]
  · rw [hp1]
    show (process_file (upload_pdf bucket fn) (db ++ rows) fn fileText
      chunker embedder).2 = true
    rw [hp2]
  · rw [hp1]
    show (process_file (upload_pdf bucket fn) (db ++ rows) fn fileText
      chunker embedder).1.2 = db ++ rows
    rw [hp2]
  · rw [hp1]
    show ((process_file (upload_pdf bucket fn) (db ++ rows) fn fileText
      chunker embedder).1.2.filter
        (fun row => row.file_name = fn)).map DocDBRow.chunk = chunks
    rw [hp2]
    show (((db ++ rows).filter
        (fun row => row.file_name = fn)).map DocDBRow.chunk) = chunks
    rw [List.filter_append]
    have hfdb : db.filter (fun row => row.file_name = fn) = [] := by
      rw [List.filter_eq_nil_iff]
      intro r hr
      simp only [decide_eq_true_eq]
      exact hdb r hr
    have hfrows : rows.filter (fun row => row.file_name = fn) = rows := by
      rw [List.filter_eq_self]
      intro r hr
      simp only [decide_eq_true_eq]
      exact hrowname r hr
    rw [hfdb, hfrows, List.nil_append, hrows, List.map_map]
    have hcomp : (DocDBRow.chunk ∘ fun p : String × Vec =>
        ({ file_name := fn, chunk := p.1, embedding := p.2 } : DocDBRow)) =
        Prod.fst := by
      funext p
      rfl
    rw [hcomp, List.map_fst_zip]
    omega

/-- Witness for C8: a fresh store, a one-chunk document, re-ingested
under the same name. -/
theorem C8_reingest_idempotent_witness :
    (process_file [] [] "doc.pdf" "text" (fun t => [t])
      (fun cs => cs.map (fun _ => ([] : Vec)))).2 = true ∧
    (process_file
        (process_file [] [] "doc.pdf" "text" (fun t => [t])
          (fun cs => cs.map (fun _ => ([] : Vec)))).1.1
        (process_file [] [] "doc.pdf" "text" (fun t => [t])
          (fun cs => cs.map (fun _ => ([] : Vec)))).1.2
        "doc.pdf" "text" (fun t => [t])
        (fun cs => cs.map (fun _ => ([] : Vec)))).2 = true ∧
    (process_file
        (process_file [] [] "doc.pdf" "text" (fun t => [t])
          (fun cs => cs.map (fun _ => ([] : Vec)))).1.1
        (process_file [] [] "doc.pdf" "text" (fun t => [t])
          (fun cs => cs.map (fun _ => ([] : Vec)))).1.2
        "doc.pdf" "text" (fun t => [t])
        (fun cs => cs.map (fun _ => ([] : Vec)))).1.2 =
      (process_file [] [] "doc.pdf" "text" (fun t => [t])
        (fun cs => cs.map (fun _ => ([] : Vec)))).1.2 ∧
    ((process_file
        (process_file [] [] "doc.pdf" "text" (fun t => [t])
          (fun cs => cs.map (fun _ => ([] : Vec)))).1.1
        (process_file [] [] "doc.pdf" "text" (fun t => [t])
          (fun cs => cs.map (fun _ => ([] : Vec)))).1.2
        "doc.pdf" "text" (fun t => [t])
        (fun cs => cs.map (fun _ => ([] : Vec)))).1.2.filter
          (fun row => row.file_name = "doc.pdf")).map DocDBRow.chunk =
      (fun t => [t]) "text" :=
  C8_reingest_idempotent [] [] "doc.pdf" "text" (fun t => [t])
    (fun cs => cs.map (fun _ => ([] : Vec)))
    (by simp) (by simp) (by simp)

/-- Counterexample to C9 as stated: the End Session handler does not
remove or reset the stored lesson plan - on a post-quiz state whose
plan is `["A", "B"]`, the plan is still `["A", "B"]` afterwards (and
likewise the score keeps its value). -/
theorem C9_counterexample :
    endedQuizState.lesson_plan = some ["A", "B"] ∧
    (endSession endedQuizState).lesson_plan = some ["A", "B"] ∧
    (endSession endedQuizState).score = 3 := by
  refine ⟨rfl, rfl, rfl⟩

/-- C9 (amended): the End Session action returns the session to the
lobby by clearing the guided-session and quiz-mode flags and emptying
the transcript, but it leaves the stored lesson plan - as well as
`lesson_step`, `quiz_questions`, `score` and the current goal -
unchanged rather than removing them. -/
theorem C9_amended_end_session :
    ∀ s : AppState,
      (endSession s).messages = [] ∧
      (endSession s).in_guided_session = false ∧
      (endSession s).quiz_mode = false ∧
      (endSession s).lesson_plan = s.lesson_plan ∧
      (endSession s).lesson_step = s.lesson_step ∧
      (endSession s).quiz_questions = s.quiz_questions ∧
      (endSession s).score = s.score ∧
      (endSession s).current_goal = s.current_goal := by
  intro s
  refine ⟨rfl, rfl, rfl, rfl, rfl, rfl, rfl, rfl⟩

/-- Witness for C9 (amended) at the concrete post-quiz state. -/
theorem C9_amended_end_session_witness :
    (endSession endedQuizState).messages = [] ∧
    (endSession endedQuizState).in_guided_session = false ∧
    (endSession endedQuizState).quiz_mode = false ∧
    (endSession endedQuizState).lesson_plan =
      endedQuizState.lesson_plan ∧
    (endSession endedQuizState).lesson_step =
      endedQuizState.lesson_step ∧
    (endSession endedQuizState).quiz_questions =
      endedQuizState.quiz_questions ∧
    (endSession endedQuizState).score = endedQuizState.score ∧
    (endSession endedQuizState).current_goal =
      endedQuizState.current_goal :=
  C9_amended_end_session endedQuizState
